import Mathlib

/-!
Verification of the lldb pretty-printing core in `.devenv/lldb/rust/chrono.py`.

The Python source decodes chrono packed values and renders them with the
CPython `datetime` library.  The shallow embedding below models:

* CPython proleptic-Gregorian ordinal arithmetic (`_ymd2ord`, `_ord2ymd`,
  `_days_before_year`, `_days_before_month`, `_is_leap`, the month tables),
  translated from CPython `Lib/datetime.py`;
* a `datetime` value as its total count of seconds
  `toordinal() * 86400 + second_of_day`, valid between `datetime.min`
  (0001-01-01, ordinal 1) and `datetime.max` (9999-12-31 23:59:59);
  constructor range errors (`ValueError`) and out-of-range additions
  (`OverflowError`) are modelled as `none`;
* `strftime` with the format directives the source uses (`%Y` zero-padded to
  4, `%m %d %H %M %S` zero-padded to 2) and Python `f"{n:0w}"` padding;
* the five functions of the source, with the lldb `valobj` field plumbing
  stripped (each takes the raw unsigned field integers, and the signed
  `local_minus_utc` as an `Int`), keeping the source names.
-/

set_option autoImplicit false

/-- CPython `_is_leap`: proleptic Gregorian leap-year rule. -/
def isLeap (y : Nat) : Bool :=
  y % 4 == 0 && (y % 100 != 0 || y % 400 == 0)

/-- CPython `_DAYS_IN_MONTH` table (without the leap-February adjustment). -/
def daysInMonthTable (m : Nat) : Nat :=
  match m with
  | 1 => 31 | 2 => 28 | 3 => 31 | 4 => 30 | 5 => 31 | 6 => 30
  | 7 => 31 | 8 => 31 | 9 => 30 | 10 => 31 | 11 => 30 | 12 => 31
  | _ => 0

/-- CPython `_DAYS_BEFORE_MONTH` table (without the leap adjustment). -/
def daysBeforeMonthTable (m : Nat) : Nat :=
  match m with
  | 1 => 0 | 2 => 31 | 3 => 59 | 4 => 90 | 5 => 120 | 6 => 151
  | 7 => 181 | 8 => 212 | 9 => 243 | 10 => 273 | 11 => 304 | 12 => 334
  | _ => 0

/-- CPython `_days_in_month year month`. -/
def daysInMonth (y m : Nat) : Nat :=
  if m = 2 ∧ isLeap y = true then 29 else daysInMonthTable m

/-- CPython `_days_before_month year month`. -/
def daysBeforeMonth (y m : Nat) : Nat :=
  daysBeforeMonthTable m + (if 2 < m ∧ isLeap y = true then 1 else 0)

/-- CPython `_days_before_year year`. -/
def daysBeforeYear (y : Nat) : Nat :=
  (y - 1) * 365 + (y - 1) / 4 - (y - 1) / 100 + (y - 1) / 400

/-- CPython `_ymd2ord`: proleptic Gregorian ordinal, with 0001-01-01 as day 1. -/
def ymd2ord (y m d : Nat) : Nat :=
  daysBeforeYear y + daysBeforeMonth y m + d

/-- CPython `_ord2ymd`: inverse of `ymd2ord` on valid ordinals. -/
def ord2ymd (n : Nat) : Nat × Nat × Nat :=
  let n0 := n - 1
  let n400 := n0 / 146097
  let r400 := n0 % 146097
  let n100 := r400 / 36524
  let r100 := r400 % 36524
  let n4 := r100 / 1461
  let r4 := r100 % 1461
  let n1 := r4 / 365
  let rd := r4 % 365
  let year := n400 * 400 + 1 + n100 * 100 + n4 * 4 + n1
  if n1 = 4 ∨ n100 = 4 then
    (year - 1, 12, 31)
  else
    let leapyear : Bool := n1 == 3 && (n4 != 24 || n100 == 3)
    let month := (rd + 50) >>> 5
    let preceding := daysBeforeMonthTable month +
      (if 2 < month ∧ leapyear = true then 1 else 0)
    if rd < preceding then
      let month2 := month - 1
      let preceding2 := preceding -
        (daysInMonthTable month2 + (if month2 = 2 ∧ leapyear = true then 1 else 0))
      (year, month2, rd - preceding2 + 1)
    else
      (year, month, rd - preceding + 1)

/-- `datetime.max` in total seconds: ordinal of 9999-12-31, times 86400,
plus the 86399 seconds of its last second of day. -/
def dtMax : Nat := ymd2ord 9999 12 31 * 86400 + 86399

/-- `datetime.min` in total seconds: ordinal 1 (0001-01-01) times 86400. -/
def dtMin : Nat := 86400

/-- Python `datetime(year, month, day)` (midnight): checks
`MINYEAR <= year <= MAXYEAR` and day validity, as the CPython constructor
does, returning the total-seconds value; `none` models `ValueError`. -/
def mkDatetime (year : Int) (month day : Nat) : Option Nat :=
  if 1 ≤ year ∧ year ≤ 9999 ∧ 1 ≤ month ∧ month ≤ 12 ∧
      1 ≤ day ∧ day ≤ daysInMonth year.toNat month then
    some (ymd2ord year.toNat month day * 86400)
  else
    none

/-- Python `datetime + timedelta(seconds=k)`: the result must stay between
`datetime.min` and `datetime.max`; `none` models `OverflowError`. -/
def addSeconds (t : Nat) (k : Int) : Option Nat :=
  if (dtMin : Int) ≤ (t : Int) + k ∧ (t : Int) + k ≤ (dtMax : Int) then
    some ((t : Int) + k).toNat
  else
    none

/-- Python `datetime + timedelta(days=d)`. -/
def addDays (t : Nat) (d : Nat) : Option Nat :=
  addSeconds t ((d : Int) * 86400)

/-- Python `f"{n:0w}"` for a nonnegative integer: decimal digits of `n`,
left-padded with zeros to a minimum width `w`. -/
def pad (w n : Nat) : String :=
  let s := Nat.repr n
  if s.length < w then String.mk (List.replicate (w - s.length) '0') ++ s else s

/-- `strftime("%Y-%m-%d")` of a total-seconds datetime value. -/
def strftimeYmd (t : Nat) : String :=
  let c := ord2ymd (t / 86400)
  pad 4 c.1 ++ "-" ++ pad 2 c.2.1 ++ "-" ++ pad 2 c.2.2

/-- `strftime("%Y-%m-%dT%H:%M:%S")` of a total-seconds datetime value. -/
def strftimeYmdHMS (t : Nat) : String :=
  strftimeYmd t ++ "T" ++ pad 2 (t % 86400 / 3600) ++ ":" ++
    pad 2 (t % 86400 / 60 % 60) ++ ":" ++ pad 2 (t % 60)

/-- `strftime("%H:%M")` of a total-seconds datetime value. -/
def strftimeHM (t : Nat) : String :=
  pad 2 (t % 86400 / 3600) ++ ":" ++ pad 2 (t % 86400 / 60 % 60)

/-- `naive_date` from the source (lines 3-8), on the raw `ymdf` field:
`year = ymdf >> 13`, `day_of_year = (ymdf & 8191) >> 4`, result
`(datetime(year - 1, 12, 31) + timedelta(days=day_of_year)).strftime("%Y-%m-%d")`.
`none` models an uncaught Python exception. -/
def naive_date (ymdf : Nat) : Option String :=
  let year : Int := (ymdf >>> 13 : Nat)
  let day_of_year : Nat := (ymdf &&& 8191) >>> 4
  Option.bind (mkDatetime (year - 1) 12 31) fun t0 =>
  Option.bind (addDays t0 day_of_year) fun t1 =>
  some (strftimeYmd t1)

/-- `naive_time` from the source (lines 10-14), on the raw `secs` and `frac`
fields: `f"{h:02}:{m:02}:{s:02}.{frac:09}"` with `h = secs // 3600`,
`m = (secs // 60) % 60`, `s = secs % 60`.  Total: the Python code cannot
raise on unsigned inputs. -/
def naive_time (secs frac : Nat) : String :=
  pad 2 (secs / 3600) ++ ":" ++ pad 2 (secs / 60 % 60) ++ ":" ++
    pad 2 (secs % 60) ++ "." ++ pad 9 frac

/-- `naive_datetime` from the source (lines 16-24):
`datetime(year - 1, 12, 31) + timedelta(days=day_of_year) + timedelta(seconds=secs)`,
rendered as `%Y-%m-%dT%H:%M:%S` plus `f".{frac // 1000000:03}"`. -/
def naive_datetime (ymdf secs frac : Nat) : Option String :=
  let year : Int := (ymdf >>> 13 : Nat)
  let day_of_year : Nat := (ymdf &&& 8191) >>> 4
  Option.bind (mkDatetime (year - 1) 12 31) fun t0 =>
  Option.bind (addDays t0 day_of_year) fun t1 =>
  Option.bind (addSeconds t1 (secs : Int)) fun t2 =>
  some (strftimeYmdHMS t2 ++ "." ++ pad 3 (frac / 1000000))

/-- The offset suffix built inside `datetime_fixed` (source lines 33-37):
sign `"+"` when `0 <= offset`, else `"-"`, followed by
`(datetime(1900, 1, 1) + timedelta(seconds=abs(offset))).strftime("%H:%M")`. -/
def render_offset (local_minus_utc : Int) : Option String :=
  Option.bind (mkDatetime 1900 1 1) fun a =>
  Option.bind (addSeconds a (local_minus_utc.natAbs : Int)) fun t =>
  some ((if 0 ≤ local_minus_utc then "+" else "-") ++ strftimeHM t)

/-- `datetime_fixed` from the source (lines 26-37):
the offset suffix of `render_offset`, and the main value
`datetime(year - 1, 12, 31) + timedelta(days=day_of_year) + timedelta(seconds=secs + offset)`
rendered as `%Y-%m-%dT%H:%M:%S` plus `f".{frac // 1000000:03}"` plus the suffix.
The source computes `offset_dt` (line 34) before the main date (line 35). -/
def datetime_fixed (ymdf secs frac : Nat) (offset : Int) : Option String :=
  let year : Int := (ymdf >>> 13 : Nat)
  let day_of_year : Nat := (ymdf &&& 8191) >>> 4
  Option.bind (render_offset offset) fun off =>
  Option.bind (mkDatetime (year - 1) 12 31) fun t0 =>
  Option.bind (addDays t0 day_of_year) fun t1 =>
  Option.bind (addSeconds t1 ((secs : Int) + offset)) fun t2 =>
  some (strftimeYmdHMS t2 ++ "." ++ pad 3 (frac / 1000000) ++ off)

/-- `datetime_utc` from the source (lines 39-47): the same computation as
`naive_datetime`, with a literal `"Z"` appended. -/
def datetime_utc (ymdf secs frac : Nat) : Option String :=
  let year : Int := (ymdf >>> 13 : Nat)
  let day_of_year : Nat := (ymdf &&& 8191) >>> 4
  Option.bind (mkDatetime (year - 1) 12 31) fun t0 =>
  Option.bind (addDays t0 day_of_year) fun t1 =>
  Option.bind (addSeconds t1 (secs : Int)) fun t2 =>
  some (strftimeYmdHMS t2 ++ "." ++ pad 3 (frac / 1000000) ++ "Z")

/-! ## Helper lemmas about the embedded CPython date arithmetic -/

lemma daysInMonth_12 (y : Nat) : daysInMonth y 12 = 31 := by
  simp [daysInMonth, daysInMonthTable]

lemma isLeap_iff (y : Nat) :
    isLeap y = true ↔ (y % 4 = 0 ∧ (y % 100 ≠ 0 ∨ y % 400 = 0)) := by
  simp [isLeap]

lemma ymd2ord_dec31_ge (y : Nat) : 365 ≤ ymd2ord y 12 31 := by
  simp only [ymd2ord, daysBeforeYear, daysBeforeMonth, daysBeforeMonthTable]
  split_ifs <;> omega

lemma ymd2ord_dec31_ub9997 (y : Nat) (h : y ≤ 9997) : ymd2ord y 12 31 ≤ 3651330 := by
  simp only [ymd2ord, daysBeforeYear, daysBeforeMonth, daysBeforeMonthTable]
  split_ifs <;> omega

lemma ymd2ord_dec31_ub8999 (y : Nat) (h : y ≤ 8999) : ymd2ord y 12 31 ≤ 3286818 := by
  simp only [ymd2ord, daysBeforeYear, daysBeforeMonth, daysBeforeMonthTable]
  split_ifs <;> omega

set_option maxHeartbeats 1000000 in
lemma ymd2ord_jan1 (y : Nat) (h : 2 ≤ y) :
    ymd2ord y 1 1 = ymd2ord (y - 1) 12 31 + 1 := by
  simp only [ymd2ord, daysBeforeYear, daysBeforeMonth, daysBeforeMonthTable]
  have h1 : ¬(2 < 1 ∧ isLeap y = true) := by omega
  rw [if_neg h1]
  by_cases hL : isLeap (y - 1) = true
  · have h2 : (2 < 12 ∧ isLeap (y - 1) = true) := ⟨by omega, hL⟩
    rw [if_pos h2]
    rw [isLeap_iff] at hL
    omega
  · have h2 : ¬(2 < 12 ∧ isLeap (y - 1) = true) := by
      intro hc
      exact hL hc.2
    rw [if_neg h2]
    rw [isLeap_iff] at hL
    push_neg at hL
    omega

lemma dtMax_eq : dtMax = 315537983999 := by
  have h : ymd2ord 9999 12 31 = 3652059 := by decide
  unfold dtMax
  rw [h]

lemma ord1900 : ymd2ord 1900 1 1 = 693596 := by decide

lemma mk1900 : mkDatetime 1900 1 1 = some (693596 * 86400) := by decide

lemma mask_shift_le (ymdf : Nat) : (ymdf &&& 8191) >>> 4 ≤ 511 := by
  have h1 : ymdf &&& 8191 ≤ 8191 := Nat.and_le_right
  have h2 : (ymdf &&& 8191) >>> 4 = (ymdf &&& 8191) / 2 ^ 4 :=
    Nat.shiftRight_eq_div_pow _ _
  omega

lemma mkDatetime_dec31 (y : Nat) (h1 : 1 ≤ y) (h9 : y ≤ 9999) :
    mkDatetime ((y : Int)) 12 31 = some (ymd2ord y 12 31 * 86400) := by
  unfold mkDatetime
  rw [if_pos]
  · rw [Int.toNat_natCast]
  · refine ⟨by omega, by omega, by omega, by omega, by omega, ?_⟩
    rw [Int.toNat_natCast, daysInMonth_12]

lemma addSeconds_eq (t : Nat) (k : Int) (h0 : 86400 ≤ (t : Int) + k)
    (h1 : (t : Int) + k ≤ 315537983999) :
    addSeconds t k = some ((t : Int) + k).toNat := by
  unfold addSeconds
  have hmax := dtMax_eq
  have hmin : dtMin = 86400 := rfl
  rw [if_pos]
  exact ⟨by omega, by omega⟩

lemma addDays_eq (t d : Nat) (h0 : 86400 ≤ t) (h1 : t + d * 86400 ≤ 315537983999) :
    addDays t d = some (t + d * 86400) := by
  unfold addDays
  have ht : ((t : Int) + (d : Int) * 86400).toNat = t + d * 86400 := by omega
  rw [addSeconds_eq t ((d : Int) * 86400) (by omega) (by omega), ht]

lemma naive_date_some (ymdf : Nat) (h2 : 2 ≤ ymdf >>> 13) (h9 : ymdf >>> 13 ≤ 10000)
    (hov : ymd2ord (ymdf >>> 13 - 1) 12 31 + (ymdf &&& 8191) >>> 4 ≤ 3652059) :
    naive_date ymdf =
      some (strftimeYmd ((ymd2ord (ymdf >>> 13 - 1) 12 31 + (ymdf &&& 8191) >>> 4) * 86400)) := by
  have hcast : ((ymdf >>> 13 : Nat) : Int) - (1 : Int) = ((ymdf >>> 13 - 1 : Nat) : Int) := by omega
  have hge := ymd2ord_dec31_ge (ymdf >>> 13 - 1)
  simp only [naive_date]
  rw [hcast, mkDatetime_dec31 (ymdf >>> 13 - 1) (by omega) (by omega), Option.some_bind,
    addDays_eq _ _ (by omega) (by omega), Option.some_bind]
  have hm : ymd2ord (ymdf >>> 13 - 1) 12 31 * 86400 + (ymdf &&& 8191) >>> 4 * 86400
      = (ymd2ord (ymdf >>> 13 - 1) 12 31 + (ymdf &&& 8191) >>> 4) * 86400 := by ring
  rw [hm]

lemma naive_date_none_low (ymdf : Nat) (h : ymdf >>> 13 ≤ 1) : naive_date ymdf = none := by
  simp only [naive_date, mkDatetime]
  rw [if_neg]
  · rfl
  · intro hc
    have h1 := hc.1
    omega

lemma naive_date_none_high (ymdf : Nat) (h : 10001 ≤ ymdf >>> 13) :
    naive_date ymdf = none := by
  simp only [naive_date, mkDatetime]
  rw [if_neg]
  · rfl
  · intro hc
    have h1 := hc.2.1
    omega

lemma naive_date_none_overflow (ymdf : Nat) (h2 : 2 ≤ ymdf >>> 13)
    (h9 : ymdf >>> 13 ≤ 10000)
    (hov : 3652059 < ymd2ord (ymdf >>> 13 - 1) 12 31 + (ymdf &&& 8191) >>> 4) :
    naive_date ymdf = none := by
  have hcast : ((ymdf >>> 13 : Nat) : Int) - (1 : Int) = ((ymdf >>> 13 - 1 : Nat) : Int) := by omega
  simp only [naive_date]
  rw [hcast, mkDatetime_dec31 (ymdf >>> 13 - 1) (by omega) (by omega), Option.some_bind]
  unfold addDays addSeconds
  rw [if_neg]
  · rfl
  · have hmax := dtMax_eq
    intro hc
    have h1 := hc.2
    omega

lemma timestamp_chain {α : Type} (Y D : Nat) (s : Int) (k : Nat → Option α)
    (h2 : 2 ≤ Y) (h9 : Y ≤ 10000)
    (hd : ymd2ord (Y - 1) 12 31 + D ≤ 3652059)
    (hs0 : 0 ≤ s)
    (hmax : ((ymd2ord (Y - 1) 12 31 + D : Nat) : Int) * 86400 + s ≤ 315537983999) :
    (Option.bind (mkDatetime ((Y : Int) - 1) 12 31) fun t0 =>
     Option.bind (addDays t0 D) fun t1 =>
     Option.bind (addSeconds t1 s) k) =
    k ((ymd2ord (Y - 1) 12 31 + D) * 86400 + s.toNat) := by
  have hcast : ((Y : Nat) : Int) - (1 : Int) = ((Y - 1 : Nat) : Int) := by omega
  have hge := ymd2ord_dec31_ge (Y - 1)
  rw [hcast, mkDatetime_dec31 (Y - 1) (by omega) (by omega), Option.some_bind,
    addDays_eq _ _ (by omega) (by omega), Option.some_bind,
    addSeconds_eq _ s (by omega) (by omega), Option.some_bind]
  congr 1
  omega

lemma strftimeYmdHMS_decomp (t : Nat) :
    strftimeYmdHMS t = strftimeYmd (t / 86400 * 86400) ++ "T" ++ pad 2 (t % 86400 / 3600) ++
      ":" ++ pad 2 (t % 86400 / 60 % 60) ++ ":" ++ pad 2 (t % 60) := by
  unfold strftimeYmdHMS strftimeYmd
  rw [Nat.mul_div_cancel]
  norm_num

lemma render_offset_eq (o : Int) (hb : o.natAbs ≤ 2147483648) :
    render_offset o =
      some ((if 0 ≤ o then "+" else "-") ++
        (pad 2 (o.natAbs / 3600 % 24) ++ ":" ++ pad 2 (o.natAbs / 60 % 60))) := by
  unfold render_offset
  rw [mk1900, Option.some_bind, addSeconds_eq _ _ (by omega) (by omega), Option.some_bind]
  have htn : (((693596 * 86400 : Nat) : Int) + (o.natAbs : Int)).toNat
      = 693596 * 86400 + o.natAbs := by omega
  rw [htn]
  unfold strftimeHM
  have e1 : (693596 * 86400 + o.natAbs) % 86400 / 3600 = o.natAbs / 3600 % 24 := by omega
  have e2 : (693596 * 86400 + o.natAbs) % 86400 / 60 % 60 = o.natAbs / 60 % 60 := by omega
  rw [e1, e2]

/-- Sanity checks of the embedded calendar arithmetic against known CPython
`date.toordinal` values, and round trips through `ord2ymd` at leap-year
boundary dates. -/
theorem calendar_embedding_sanity :
    ymd2ord 2023 12 31 = 738885 ∧ ymd2ord 1900 1 1 = 693596 ∧
    ymd2ord 9999 12 31 = 3652059 ∧
    ord2ymd (ymd2ord 2024 1 1) = (2024, 1, 1) ∧
    ord2ymd (ymd2ord 2024 2 29) = (2024, 2, 29) ∧
    ord2ymd (ymd2ord 2023 2 28) = (2023, 2, 28) ∧
    ord2ymd (ymd2ord 2000 2 29) = (2000, 2, 29) ∧
    ord2ymd (ymd2ord 1900 2 28) = (1900, 2, 28) ∧
    ord2ymd (ymd2ord 2003 3 1) = (2003, 3, 1) := by
  refine ⟨by decide, by decide, by decide, by decide, by decide, by decide,
    by decide, by decide, by decide⟩

/-! ## Claim theorems -/

/-- Claim C1 (corrected, counterexample): at year bits 2024 with ordinal field
0 the decoder renders "2023-12-31", not "2024-01-01" as the claim states: the
code advances December 31 of the previous year by the ordinal field, with no
extra `+ 1` day, and does not offset the stored year. -/
theorem naive_date_year_bits_2024_ordinal0 :
    naive_date (2024 <<< 13) = some "2023-12-31" ∧
    naive_date (2024 <<< 13) ≠ some "2024-01-01" :=
  ⟨by decide, by decide⟩

/-- Claim C1 (amended): for every packed ymdf with in-range year bits and a
nonzero ordinal field, `naive_date` renders December 31 of `(ymdf >> 13) - 1`
advanced by exactly `(ymdf & 0x1FFF) >> 4` days (no extra day); equivalently
the stored ordinal field is one-based, the decoded date being January 1 of
year `ymdf >> 13` advanced by `((ymdf & 0x1FFF) >> 4) - 1` days. -/
theorem naive_date_decode_formula (ymdf : Nat)
    (h2 : 2 ≤ ymdf >>> 13) (h9 : ymdf >>> 13 ≤ 9998)
    (h1 : 1 ≤ (ymdf &&& 8191) >>> 4) :
    naive_date ymdf =
      some (strftimeYmd
        ((ymd2ord (ymdf >>> 13 - 1) 12 31 + (ymdf &&& 8191) >>> 4) * 86400)) ∧
    ymd2ord (ymdf >>> 13 - 1) 12 31 + (ymdf &&& 8191) >>> 4 =
      ymd2ord (ymdf >>> 13) 1 1 + ((ymdf &&& 8191) >>> 4 - 1) := by
  have hD := mask_shift_le ymdf
  have hub := ymd2ord_dec31_ub9997 (ymdf >>> 13 - 1) (by omega)
  refine ⟨naive_date_some ymdf h2 (by omega) (by omega), ?_⟩
  have hj := ymd2ord_jan1 (ymdf >>> 13) h2
  omega

/-- Claim C1 witness: year bits 2024 with ordinal field 1 decodes to
"2024-01-01". -/
theorem naive_date_decode_formula_check :
    naive_date ((2024 <<< 13) ||| (1 <<< 4)) = some "2024-01-01" := by
  have h := naive_date_decode_formula ((2024 <<< 13) ||| (1 <<< 4))
    (by decide) (by decide) (by decide)
  exact h.1.trans (by decide)

/-- Claim C2 (corrected, counterexample): an ordinal field of 400 (year bits
2024) does not signal any malformed-encoding failure; the decoder rolls the
excess days over and returns the plausible later date "2025-02-03". -/
theorem naive_date_ordinal_400_returns_date :
    naive_date ((2024 <<< 13) ||| (400 <<< 4)) = some "2025-02-03" := by
  decide

/-- Claim C2 (amended): `naive_date` performs no ordinal-range validation:
for every ymdf whose year bits are in the constructible range the decode
succeeds, whatever the ordinal field (it is at most 511 and the excess over
the year length is carried into later calendar dates); no malformed-encoding
condition exists in the code. -/
theorem naive_date_accepts_large_ordinal (ymdf : Nat)
    (h2 : 2 ≤ ymdf >>> 13) (h9 : ymdf >>> 13 ≤ 9998) :
    (naive_date ymdf).isSome = true := by
  have hD := mask_shift_le ymdf
  have hub := ymd2ord_dec31_ub9997 (ymdf >>> 13 - 1) (by omega)
  rw [naive_date_some ymdf h2 (by omega) (by omega)]
  rfl

/-- Claim C2 witness: the malformed ordinal 400 still decodes successfully. -/
theorem naive_date_accepts_large_ordinal_check :
    (naive_date ((2024 <<< 13) ||| (400 <<< 4))).isSome = true :=
  naive_date_accepts_large_ordinal ((2024 <<< 13) ||| (400 <<< 4))
    (by decide) (by decide)

/-- Claim C4 (confirmed): `naive_time` is total and renders exactly
`pad2(secs / 3600) : pad2(secs / 60 % 60) : pad2(secs % 60) . pad9(frac)`,
keeping `frac` verbatim (not reduced mod 1e9) and hours >= 24 as-is. -/
theorem naive_time_format :
    (∀ secs frac : Nat,
      naive_time secs frac =
        pad 2 (secs / 3600) ++ ":" ++ pad 2 (secs / 60 % 60) ++ ":" ++
          pad 2 (secs % 60) ++ "." ++ pad 9 frac) ∧
    naive_time 3661 500000000 = "01:01:01.500000000" ∧
    naive_time 86400 0 = "24:00:00.000000000" ∧
    naive_time 0 1500000000 = "00:00:00.1500000000" :=
  ⟨fun _ _ => rfl, by decide, by decide, by decide⟩

/-- Claim C7 (confirmed): the offset renderer puts sign "+" exactly when
`0 <= local_minus_utc`, splits the magnitude into hours and minutes, and
floor-truncates any sub-minute second remainder; `0` gives "+00:00",
`-3600` gives "-01:00" and `19800` gives "+05:30". -/
theorem render_offset_sign_and_hm :
    (∀ o : Int, o.natAbs < 86400 →
      render_offset o =
        some ((if 0 ≤ o then "+" else "-") ++
          (pad 2 (o.natAbs / 3600) ++ ":" ++ pad 2 (o.natAbs % 3600 / 60)))) ∧
    render_offset 0 = some "+00:00" ∧
    render_offset (-3600) = some "-01:00" ∧
    render_offset 19800 = some "+05:30" := by
  refine ⟨fun o ho => ?_, by decide, by decide, by decide⟩
  rw [render_offset_eq o (by omega)]
  have e1 : o.natAbs / 3600 % 24 = o.natAbs / 3600 := by omega
  have e2 : o.natAbs / 60 % 60 = o.natAbs % 3600 / 60 := by omega
  rw [e1, e2]

/-- Claim C7 witness: a 90-second offset renders truncated as "+00:01". -/
theorem render_offset_sign_and_hm_check : render_offset 90 = some "+00:01" := by
  have h := render_offset_sign_and_hm.1 90 (by decide)
  exact h.trans (by decide)

/-- Claim C9 (confirmed): the rendered offset hour field is the magnitude
hour count modulo 24 (the magnitude is added to the fixed 1900-01-01 anchor
and only hour and minute are read back), so whole days are silently dropped:
86400 renders "+00:00" and -86400 renders "-00:00". -/
theorem render_offset_mod24 :
    (∀ o : Int, o.natAbs ≤ 2147483648 →
      render_offset o =
        some ((if 0 ≤ o then "+" else "-") ++
          (pad 2 (o.natAbs / 3600 % 24) ++ ":" ++ pad 2 (o.natAbs / 60 % 60)))) ∧
    render_offset 86400 = some "+00:00" ∧
    render_offset (-86400) = some "-00:00" :=
  ⟨fun o ho => render_offset_eq o ho, by decide, by decide⟩

/-- Claim C9 witness: 90000 seconds (25 h) renders with the day dropped,
as "+01:00". -/
theorem render_offset_mod24_check : render_offset 90000 = some "+01:00" := by
  have h := render_offset_mod24.1 90000 (by decide)
  exact h.trans (by decide)

/-- Claim C8 (corrected, counterexample): `naive_date` does abort for some
inputs: ymdf = 0 decodes to year 0, and `datetime(-1, 12, 31)` raises
`ValueError`; a year far above 9999 (here year bits 20000) raises as well. -/
theorem naive_date_zero_raises :
    naive_date 0 = none ∧ naive_date (20000 <<< 13) = none :=
  ⟨by decide, by decide⟩

/-- Claim C8 (amended): `naive_date` returns normally exactly when the
decoded year bits are at least 2, at most 10000 (so that `year - 1` is a
constructible Python year), and the anchor ordinal plus the ordinal field
stays at or below the ordinal of 9999-12-31; outside that the call aborts
with an uncaught exception instead of rendering. -/
theorem naive_date_raise_characterization (ymdf : Nat) :
    (naive_date ymdf).isSome = true ↔
      (2 ≤ ymdf >>> 13 ∧ ymdf >>> 13 ≤ 10000 ∧
        ymd2ord (ymdf >>> 13 - 1) 12 31 + (ymdf &&& 8191) >>> 4 ≤ 3652059) := by
  constructor
  · intro hs
    rcases Nat.lt_or_ge (ymdf >>> 13) 2 with h | h
    · rw [naive_date_none_low ymdf (by omega)] at hs
      simp at hs
    · rcases Nat.lt_or_ge 10000 (ymdf >>> 13) with h1 | h1
      · rw [naive_date_none_high ymdf (by omega)] at hs
        simp at hs
      · rcases Nat.lt_or_ge 3652059
            (ymd2ord (ymdf >>> 13 - 1) 12 31 + (ymdf &&& 8191) >>> 4) with h3 | h3
        · rw [naive_date_none_overflow ymdf (by omega) (by omega) h3] at hs
          simp at hs
        · exact ⟨h, by omega, h3⟩
  · rintro ⟨h2, h9, hov⟩
    rw [naive_date_some ymdf h2 h9 hov]
    rfl

/-- Claim C5 (confirmed): the composed naive timestamp renders its fractional
part as `frac` floor-divided by 1,000,000 (truncated, not rounded),
zero-padded to 3 digits, appended after the seconds field. -/
theorem naive_datetime_millisecond_truncation (ymdf secs frac : Nat)
    (h2 : 2 ≤ ymdf >>> 13) (h9 : ymdf >>> 13 ≤ 9000) (hs : secs < 4294967296) :
    naive_datetime ymdf secs frac =
      some (strftimeYmdHMS
          ((ymd2ord (ymdf >>> 13 - 1) 12 31 + (ymdf &&& 8191) >>> 4) * 86400 + secs)
        ++ "." ++ pad 3 (frac / 1000000)) := by
  have hD := mask_shift_le ymdf
  have hub := ymd2ord_dec31_ub8999 (ymdf >>> 13 - 1) (by omega)
  simp only [naive_datetime]
  rw [timestamp_chain (ymdf >>> 13) ((ymdf &&& 8191) >>> 4) (secs : Int)
      (fun t2 => some (strftimeYmdHMS t2 ++ "." ++ pad 3 (frac / 1000000)))
      h2 (by omega) (by omega) (by omega) (by omega)]
  rw [Int.toNat_natCast]

/-- Claim C5 witness: secs 3661 and frac 500000000 on 2024-01-01 compose to
"2024-01-01T01:01:01.500", ending in ".500". -/
theorem naive_datetime_millisecond_truncation_check :
    naive_datetime ((2024 <<< 13) ||| (1 <<< 4)) 3661 500000000 =
      some "2024-01-01T01:01:01.500" := by
  have h := naive_datetime_millisecond_truncation ((2024 <<< 13) ||| (1 <<< 4))
    3661 500000000 (by decide) (by decide) (by decide)
  exact h.trans (by decide)

/-- Claim C6 (confirmed): on every input, `datetime_utc` is exactly
`naive_datetime` with the literal character "Z" appended (so it always ends
with "Z" and never with a numeric offset). -/
theorem datetime_utc_is_naive_plus_Z (ymdf secs frac : Nat) :
    datetime_utc ymdf secs frac =
      Option.map (fun s => s ++ "Z") (naive_datetime ymdf secs frac) := by
  simp only [datetime_utc, naive_datetime]
  cases mkDatetime (((ymdf >>> 13 : Nat) : Int) - (1 : Int)) 12 31 with
  | none => rfl
  | some t0 =>
    rw [Option.some_bind, Option.some_bind]
    cases addDays t0 ((ymdf &&& 8191) >>> 4) with
    | none => rfl
    | some t1 =>
      rw [Option.some_bind, Option.some_bind]
      cases addSeconds t1 (secs : Int) with
      | none => rfl
      | some t2 => rfl

/-- Claim C3 (confirmed): `datetime_fixed` adds `local_minus_utc` to the
decoded seconds before splitting into date and time, so whenever
`secs < 86400` and a nonnegative offset pushes `secs + offset` to 86400 or
beyond, the rendered string shows the next calendar day with the wrapped
hour `(secs + offset - 86400) / 3600`, which is below 24. -/
theorem datetime_fixed_day_rollover (ymdf secs frac : Nat) (offset : Int)
    (h2 : 2 ≤ ymdf >>> 13) (h9 : ymdf >>> 13 ≤ 9000)
    (hs : secs < 86400) (ho0 : 0 ≤ offset) (ho1 : offset ≤ 86400)
    (hx : 86400 ≤ (secs : Int) + offset) :
    datetime_fixed ymdf secs frac offset =
      some (strftimeYmd
          ((ymd2ord (ymdf >>> 13 - 1) 12 31 + (ymdf &&& 8191) >>> 4 + 1) * 86400)
        ++ "T" ++ pad 2 (((secs : Int) + offset - 86400).toNat / 3600)
        ++ ":" ++ pad 2 (((secs : Int) + offset - 86400).toNat / 60 % 60)
        ++ ":" ++ pad 2 (((secs : Int) + offset - 86400).toNat % 60)
        ++ "." ++ pad 3 (frac / 1000000)
        ++ ("+" ++ (pad 2 (offset.toNat / 3600 % 24) ++ ":" ++
            pad 2 (offset.toNat / 60 % 60)))) ∧
    ((secs : Int) + offset - 86400).toNat / 3600 < 24 := by
  have hD := mask_shift_le ymdf
  have hub := ymd2ord_dec31_ub8999 (ymdf >>> 13 - 1) (by omega)
  refine ⟨?_, by omega⟩
  simp only [datetime_fixed]
  rw [render_offset_eq offset (by omega), Option.some_bind]
  rw [timestamp_chain (ymdf >>> 13) ((ymdf &&& 8191) >>> 4) ((secs : Int) + offset)
      (fun t2 => some (strftimeYmdHMS t2 ++ "." ++ pad 3 (frac / 1000000) ++
        ((if 0 ≤ offset then "+" else "-") ++
          (pad 2 (offset.natAbs / 3600 % 24) ++ ":" ++ pad 2 (offset.natAbs / 60 % 60)))))
      h2 (by omega) (by omega) (by omega) (by omega)]
  rw [strftimeYmdHMS_decomp, if_pos ho0]
  have e0 : ((ymd2ord (ymdf >>> 13 - 1) 12 31 + (ymdf &&& 8191) >>> 4) * 86400 +
      ((secs : Int) + offset).toNat) / 86400 * 86400 =
      (ymd2ord (ymdf >>> 13 - 1) 12 31 + (ymdf &&& 8191) >>> 4 + 1) * 86400 := by
    omega
  have e1 : ((ymd2ord (ymdf >>> 13 - 1) 12 31 + (ymdf &&& 8191) >>> 4) * 86400 +
      ((secs : Int) + offset).toNat) % 86400 / 3600 =
      ((secs : Int) + offset - 86400).toNat / 3600 := by
    omega
  have e2 : ((ymd2ord (ymdf >>> 13 - 1) 12 31 + (ymdf &&& 8191) >>> 4) * 86400 +
      ((secs : Int) + offset).toNat) % 86400 / 60 % 60 =
      ((secs : Int) + offset - 86400).toNat / 60 % 60 := by
    omega
  have e3 : ((ymd2ord (ymdf >>> 13 - 1) 12 31 + (ymdf &&& 8191) >>> 4) * 86400 +
      ((secs : Int) + offset).toNat) % 60 =
      ((secs : Int) + offset - 86400).toNat % 60 := by
    omega
  have e4 : offset.natAbs / 3600 % 24 = offset.toNat / 3600 % 24 := by omega
  have e5 : offset.natAbs / 60 % 60 = offset.toNat / 60 % 60 := by omega
  rw [e0, e1, e2, e3, e4, e5]

/-- Claim C3 witness: 23:50 UTC-wall-clock seconds with a +00:10 offset on
2024-01-01 rolls to the next calendar day, "2024-01-02T00:00:00.000+00:10". -/
theorem datetime_fixed_day_rollover_check :
    datetime_fixed ((2024 <<< 13) ||| (1 <<< 4)) 85800 0 600 =
      some "2024-01-02T00:00:00.000+00:10" := by
  have h := datetime_fixed_day_rollover ((2024 <<< 13) ||| (1 <<< 4)) 85800 0 600
    (by decide) (by decide) (by decide) (by decide) (by decide) (by decide)
  exact h.1.trans (by decide)

/-- Claim C10 (confirmed): the three timestamp formatters add `secs` (plus
the offset, for the fixed variant) to the decoded date as a duration, so any
excess over 86400 carries into later calendar days and the rendered hour
field is the effective seconds modulo 86400 divided by 3600, always below
24 - while `naive_time` renders the raw overflowed hour for the same secs. -/
theorem timestamp_seconds_carry (ymdf secs frac : Nat)
    (h2 : 2 ≤ ymdf >>> 13) (h9 : ymdf >>> 13 ≤ 9000) (hs : secs < 4294967296) :
    (naive_datetime ymdf secs frac =
      some (strftimeYmd
          ((ymd2ord (ymdf >>> 13 - 1) 12 31 + (ymdf &&& 8191) >>> 4 + secs / 86400) * 86400)
        ++ "T" ++ pad 2 (secs % 86400 / 3600) ++ ":" ++ pad 2 (secs % 86400 / 60 % 60)
        ++ ":" ++ pad 2 (secs % 60) ++ "." ++ pad 3 (frac / 1000000))) ∧
    (datetime_utc ymdf secs frac =
      some (strftimeYmd
          ((ymd2ord (ymdf >>> 13 - 1) 12 31 + (ymdf &&& 8191) >>> 4 + secs / 86400) * 86400)
        ++ "T" ++ pad 2 (secs % 86400 / 3600) ++ ":" ++ pad 2 (secs % 86400 / 60 % 60)
        ++ ":" ++ pad 2 (secs % 60) ++ "." ++ pad 3 (frac / 1000000) ++ "Z")) ∧
    (∀ offset : Int, 0 ≤ offset → offset ≤ 86400 →
      datetime_fixed ymdf secs frac offset =
        some (strftimeYmd
            ((ymd2ord (ymdf >>> 13 - 1) 12 31 + (ymdf &&& 8191) >>> 4 +
              ((secs : Int) + offset).toNat / 86400) * 86400)
          ++ "T" ++ pad 2 (((secs : Int) + offset).toNat % 86400 / 3600)
          ++ ":" ++ pad 2 (((secs : Int) + offset).toNat % 86400 / 60 % 60)
          ++ ":" ++ pad 2 (((secs : Int) + offset).toNat % 60)
          ++ "." ++ pad 3 (frac / 1000000)
          ++ ("+" ++ (pad 2 (offset.toNat / 3600 % 24) ++ ":" ++
              pad 2 (offset.toNat / 60 % 60))))) ∧
    secs % 86400 / 3600 < 24 ∧
    naive_time secs frac =
      pad 2 (secs / 3600) ++ ":" ++ pad 2 (secs / 60 % 60) ++ ":" ++
        pad 2 (secs % 60) ++ "." ++ pad 9 frac := by
  have hD := mask_shift_le ymdf
  have hub := ymd2ord_dec31_ub8999 (ymdf >>> 13 - 1) (by omega)
  have f0 : ((ymd2ord (ymdf >>> 13 - 1) 12 31 + (ymdf &&& 8191) >>> 4) * 86400 + secs)
      / 86400 * 86400 =
      (ymd2ord (ymdf >>> 13 - 1) 12 31 + (ymdf &&& 8191) >>> 4 + secs / 86400) * 86400 := by
    omega
  have f1 : ((ymd2ord (ymdf >>> 13 - 1) 12 31 + (ymdf &&& 8191) >>> 4) * 86400 + secs)
      % 86400 / 3600 = secs % 86400 / 3600 := by
    omega
  have f2 : ((ymd2ord (ymdf >>> 13 - 1) 12 31 + (ymdf &&& 8191) >>> 4) * 86400 + secs)
      % 86400 / 60 % 60 = secs % 86400 / 60 % 60 := by
    omega
  have f3 : ((ymd2ord (ymdf >>> 13 - 1) 12 31 + (ymdf &&& 8191) >>> 4) * 86400 + secs)
      % 60 = secs % 60 := by
    omega
  refine ⟨?_, ?_, ?_, by omega, rfl⟩
  · simp only [naive_datetime]
    rw [timestamp_chain (ymdf >>> 13) ((ymdf &&& 8191) >>> 4) (secs : Int)
        (fun t2 => some (strftimeYmdHMS t2 ++ "." ++ pad 3 (frac / 1000000)))
        h2 (by omega) (by omega) (by omega) (by omega)]
    rw [Int.toNat_natCast, strftimeYmdHMS_decomp, f0, f1, f2, f3]
  · simp only [datetime_utc]
    rw [timestamp_chain (ymdf >>> 13) ((ymdf &&& 8191) >>> 4) (secs : Int)
        (fun t2 => some (strftimeYmdHMS t2 ++ "." ++ pad 3 (frac / 1000000) ++ "Z"))
        h2 (by omega) (by omega) (by omega) (by omega)]
    rw [Int.toNat_natCast, strftimeYmdHMS_decomp, f0, f1, f2, f3]
  · intro offset ho0 ho1
    simp only [datetime_fixed]
    rw [render_offset_eq offset (by omega), Option.some_bind]
    rw [timestamp_chain (ymdf >>> 13) ((ymdf &&& 8191) >>> 4) ((secs : Int) + offset)
        (fun t2 => some (strftimeYmdHMS t2 ++ "." ++ pad 3 (frac / 1000000) ++
          ((if 0 ≤ offset then "+" else "-") ++
            (pad 2 (offset.natAbs / 3600 % 24) ++ ":" ++ pad 2 (offset.natAbs / 60 % 60)))))
        h2 (by omega) (by omega) (by omega) (by omega)]
    rw [strftimeYmdHMS_decomp, if_pos ho0]
    have g0 : ((ymd2ord (ymdf >>> 13 - 1) 12 31 + (ymdf &&& 8191) >>> 4) * 86400 +
        ((secs : Int) + offset).toNat) / 86400 * 86400 =
        (ymd2ord (ymdf >>> 13 - 1) 12 31 + (ymdf &&& 8191) >>> 4 +
          ((secs : Int) + offset).toNat / 86400) * 86400 := by
      omega
    have g1 : ((ymd2ord (ymdf >>> 13 - 1) 12 31 + (ymdf &&& 8191) >>> 4) * 86400 +
        ((secs : Int) + offset).toNat) % 86400 / 3600 =
        ((secs : Int) + offset).toNat % 86400 / 3600 := by
      omega
    have g2 : ((ymd2ord (ymdf >>> 13 - 1) 12 31 + (ymdf &&& 8191) >>> 4) * 86400 +
        ((secs : Int) + offset).toNat) % 86400 / 60 % 60 =
        ((secs : Int) + offset).toNat % 86400 / 60 % 60 := by
      omega
    have g3 : ((ymd2ord (ymdf >>> 13 - 1) 12 31 + (ymdf &&& 8191) >>> 4) * 86400 +
        ((secs : Int) + offset).toNat) % 60 =
        ((secs : Int) + offset).toNat % 60 := by
      omega
    have g4 : offset.natAbs / 3600 % 24 = offset.toNat / 3600 % 24 := by omega
    have g5 : offset.natAbs / 60 % 60 = offset.toNat / 60 % 60 := by omega
    rw [g0, g1, g2, g3, g4, g5]

/-- Claim C10 witness: secs 90061 (one day plus 01:01:01) on base date
2024-01-01 renders as 2024-01-02 with hour 01 in the three timestamp
formatters, while `naive_time` shows the raw hour 25. -/
theorem timestamp_seconds_carry_check :
    naive_datetime ((2024 <<< 13) ||| (1 <<< 4)) 90061 0 =
      some "2024-01-02T01:01:01.000" ∧
    datetime_utc ((2024 <<< 13) ||| (1 <<< 4)) 90061 0 =
      some "2024-01-02T01:01:01.000Z" ∧
    datetime_fixed ((2024 <<< 13) ||| (1 <<< 4)) 90061 0 0 =
      some "2024-01-02T01:01:01.000+00:00" ∧
    naive_time 90061 0 = "25:01:01.000000000" := by
  obtain ⟨a, b, c, _, e⟩ := timestamp_seconds_carry ((2024 <<< 13) ||| (1 <<< 4))
    90061 0 (by decide) (by decide) (by decide)
  exact ⟨a.trans (by decide), b.trans (by decide),
    (c 0 (by decide) (by decide)).trans (by decide), e.trans (by decide)⟩
